import Mathlib

/-!
Verification development for the hybrid retrieval core of the
`llama_company_system_ver2` repository (`src/rag_chain.py`).

The Python values that flow through the filter-parsing code (plain strings,
`None`, lists, dicts) are modelled by the inductive type `PyVal`; Python
dicts become association lists with string keys.  Documents, the post-hoc
access filter, the BM25 text restoration, the tokenizer adapter, the
merge/dedup step and the retriever construction are translated function by
function from the source.  Fallible collaborators (vector index, lexical
index, tokenizer) are modelled as `Except`-returning functions; the source
contains no `try`/`except` around them, so the embedding threads errors
through exactly where Python would propagate an exception.
-/

namespace RagChain

/-- Model of the Python values appearing in filter dictionaries and
document metadata: `None`, strings, lists and string-keyed dicts. -/
inductive PyVal where
  | pnone : PyVal
  | str : String → PyVal
  | vList : List PyVal → PyVal
  | dict : List (String × PyVal) → PyVal

mutual

def PyVal.decEq : (a b : PyVal) → Decidable (a = b)
  | .pnone, .pnone => isTrue rfl
  | .pnone, .str _ => isFalse (fun h => PyVal.noConfusion h)
  | .pnone, .vList _ => isFalse (fun h => PyVal.noConfusion h)
  | .pnone, .dict _ => isFalse (fun h => PyVal.noConfusion h)
  | .str _, .pnone => isFalse (fun h => PyVal.noConfusion h)
  | .str a, .str b =>
    match String.decEq a b with
    | isTrue h => isTrue (by rw [h])
    | isFalse h => isFalse (fun heq => h (PyVal.str.inj heq))
  | .str _, .vList _ => isFalse (fun h => PyVal.noConfusion h)
  | .str _, .dict _ => isFalse (fun h => PyVal.noConfusion h)
  | .vList _, .pnone => isFalse (fun h => PyVal.noConfusion h)
  | .vList _, .str _ => isFalse (fun h => PyVal.noConfusion h)
  | .vList xs, .vList ys =>
    match PyVal.decEqList xs ys with
    | isTrue h => isTrue (by rw [h])
    | isFalse h => isFalse (fun heq => h (PyVal.vList.inj heq))
  | .vList _, .dict _ => isFalse (fun h => PyVal.noConfusion h)
  | .dict _, .pnone => isFalse (fun h => PyVal.noConfusion h)
  | .dict _, .str _ => isFalse (fun h => PyVal.noConfusion h)
  | .dict _, .vList _ => isFalse (fun h => PyVal.noConfusion h)
  | .dict xs, .dict ys =>
    match PyVal.decEqDict xs ys with
    | isTrue h => isTrue (by rw [h])
    | isFalse h => isFalse (fun heq => h (PyVal.dict.inj heq))

def PyVal.decEqList : (xs ys : List PyVal) → Decidable (xs = ys)
  | [], [] => isTrue rfl
  | [], _ :: _ => isFalse (fun h => List.noConfusion h)
  | _ :: _, [] => isFalse (fun h => List.noConfusion h)
  | x :: xs, y :: ys =>
    match PyVal.decEq x y with
    | isTrue h1 =>
      match PyVal.decEqList xs ys with
      | isTrue h2 => isTrue (by rw [h1, h2])
      | isFalse h2 => isFalse (fun heq => h2 (List.cons.inj heq).2)
    | isFalse h1 => isFalse (fun heq => h1 (List.cons.inj heq).1)

def PyVal.decEqDict : (xs ys : List (String × PyVal)) → Decidable (xs = ys)
  | [], [] => isTrue rfl
  | [], _ :: _ => isFalse (fun h => List.noConfusion h)
  | _ :: _, [] => isFalse (fun h => List.noConfusion h)
  | (k1, v1) :: xs, (k2, v2) :: ys =>
    match String.decEq k1 k2 with
    | isTrue hk =>
      match PyVal.decEq v1 v2 with
      | isTrue hv =>
        match PyVal.decEqDict xs ys with
        | isTrue h2 => isTrue (by rw [hk, hv, h2])
        | isFalse h2 => isFalse (fun heq => h2 (List.cons.inj heq).2)
      | isFalse hv =>
        isFalse (fun heq => hv (congrArg Prod.snd (List.cons.inj heq).1))
    | isFalse hk => isFalse (fun heq => hk (congrArg Prod.fst (List.cons.inj heq).1))

end

instance : DecidableEq PyVal := PyVal.decEq

/-- A Python dict with string keys, as used for `filter_kwargs` and
document metadata. -/
abbrev PyDict := List (String × PyVal)

/-- Python truthiness for the modelled values (`None`, `""`, `[]` and `{}`
are falsy). -/
def pyTruthy : PyVal → Bool
  | .pnone => false
  | .str s => !(s == "")
  | .vList xs => !xs.isEmpty
  | .dict es => !es.isEmpty

/-- Python `k in d` key-membership test on a dict. -/
def hasKey (d : PyDict) (k : String) : Bool :=
  d.any (fun kv => kv.1 == k)

/-- Python `d.get(k)`: value under the first matching key, `None` when the
key is absent. -/
def pgetD (d : PyDict) (k : String) : PyVal :=
  match d.find? (fun kv => kv.1 == k) with
  | some kv => kv.2
  | none => .pnone

/-- Python iteration over the value of `"$and"` after `or []`: a list value
iterates its elements; `None`/`[]` give nothing.  A truthy non-list value
(string, dict) would iterate characters or keys, none of which are dicts,
so for the clause-scanning loops below it behaves like the empty list. -/
def asClauseList : PyVal → List PyVal
  | .vList xs => xs
  | _ => []

/-- `DEFAULT_TENANT_ID` from `rag_chain.py` line 17. -/
def DEFAULT_TENANT_ID : String := "default"

/-- A LangChain `Document`: page content plus a metadata dict.  Per the
ingestion contract the content is text. -/
structure Doc where
  page_content : String
  metadata : PyDict
deriving DecidableEq

/-- `doc.metadata.get(k)` — `None` when the key is absent. -/
def metaGet (d : Doc) (k : String) : PyVal :=
  pgetD d.metadata k

/-- Errors raised by the modelled collaborators: the vector index, the
lexical (BM25) index and the tokenizer.  The source has no handler for any
of them inside the retrieval path, so they propagate. -/
inductive RagError where
  | vectorIndexError : RagError
  | lexicalIndexError : RagError
  | tokenizationError : RagError
deriving DecidableEq

/-- Visibility part of `HybridRetriever._filter_docs` (lines 87-88):
`if allowed_vis and visibility not in allowed_vis: continue`.  A document
is kept by this check iff the allowed set is empty or its `visibility`
metadata is a member. -/
def visKeep (visibility_allowed : List PyVal) (d : Doc) : Bool :=
  visibility_allowed.isEmpty || visibility_allowed.contains (metaGet d "visibility")

/-- Tenant part of `HybridRetriever._filter_docs` (lines 89-90):
`if tenant_id not in (None, self.tenant_id): continue`. -/
def tenantKeep (tenant : PyVal) (d : Doc) : Bool :=
  metaGet d "tenant_id" == PyVal.pnone || metaGet d "tenant_id" == tenant

/-- Full per-document predicate of `HybridRetriever._filter_docs`. -/
def keepDoc (visibility_allowed : List PyVal) (tenant : PyVal) (d : Doc) : Bool :=
  visKeep visibility_allowed d && tenantKeep tenant d

/-- `HybridRetriever._filter_docs` (lines 78-93). -/
def _filter_docs (visibility_allowed : List PyVal) (tenant : PyVal)
    (docs : List Doc) : List Doc :=
  docs.filter (keepDoc visibility_allowed tenant)

/-- One step of `HybridRetriever._restore_bm25_text` (lines 69-76):
`original_text = doc.metadata.get("original_text", doc.page_content)`.
The default applies only when the key is absent; `original_text` is text
per the data model, so a present value is a string. -/
def restoreDoc (d : Doc) : Doc :=
  match d.metadata.find? (fun kv => kv.1 == "original_text") with
  | some kv =>
    match kv.2 with
    | .str s => { page_content := s, metadata := d.metadata }
    | _ => { page_content := d.page_content, metadata := d.metadata }
  | none => { page_content := d.page_content, metadata := d.metadata }

/-- `HybridRetriever._restore_bm25_text` (lines 69-76). -/
def _restore_bm25_text (docs : List Doc) : List Doc :=
  docs.map restoreDoc

/-- `HybridRetriever._tokenize_question` (lines 95-98): tokenize and join
the surfaces with spaces.  There is no `try`/`except` in the source, so a
tokenizer error propagates. -/
def _tokenize_question (tokenizer : String → Except RagError (List String))
    (text : String) : Except RagError String :=
  match tokenizer text with
  | .ok tokens => .ok (String.intercalate " " tokens)
  | .error e => .error e

/-- The merge loop of `_get_relevant_documents` (lines 60-67): insert each
document into an ordered map keyed by `page_content`, keeping the first
entry per key; `seen` is the set of keys already inserted. -/
def mergeAux (seen : List String) : List Doc → List Doc
  | [] => []
  | d :: rest =>
    if d.page_content ∈ seen then mergeAux seen rest
    else d :: mergeAux (d.page_content :: seen) rest

/-- The merged, deduplicated document list (insertion-ordered dict values,
lines 60-67). -/
def mergeDocs (docs : List Doc) : List Doc :=
  mergeAux [] docs

/-- The set of keys inserted by the merge loop after processing a list,
starting from `seen`.  Used to split the merge over an append. -/
def seenAcc (seen : List String) : List Doc → List String
  | [] => seen
  | d :: rest =>
    if d.page_content ∈ seen then seenAcc seen rest
    else seenAcc (d.page_content :: seen) rest

/-- `HybridRetriever` (lines 21-41): the two sub-retrievers, the bound
access filter and the tokenizer. -/
structure HybridRetriever where
  vector_retriever : String → Except RagError (List Doc)
  bm25_retriever : String → Except RagError (List Doc)
  visibility_allowed : List PyVal
  tenant_id : PyVal
  tokenizer : String → Except RagError (List String)

/-- `HybridRetriever._get_relevant_documents` (lines 44-67): vector search,
post-hoc filter, tokenize, BM25 search, restore, post-hoc filter, merge.
No sub-step is wrapped in a handler, so any collaborator error aborts the
call. -/
def _get_relevant_documents (r : HybridRetriever) (q : String) :
    Except RagError (List Doc) :=
  match r.vector_retriever q with
  | .error e => .error e
  | .ok vraw =>
    let vector_docs := _filter_docs r.visibility_allowed r.tenant_id vraw
    match _tokenize_question r.tokenizer q with
    | .error e => .error e
    | .ok tokenized_query =>
      match r.bm25_retriever tokenized_query with
      | .error e => .error e
      | .ok braw =>
        let bm25_docs :=
          _filter_docs r.visibility_allowed r.tenant_id (_restore_bm25_text braw)
        .ok (mergeDocs (vector_docs ++ bm25_docs))

/-- `_visibility_allowed_for_role` (lines 101-106): `admin` gets
`["public", "admin_only"]`; every other role falls into the `return
["public"]` branch.  The source raises nothing here. -/
def _visibility_allowed_for_role (role : String) : List String :=
  if role == "admin" then ["public", "admin_only"] else ["public"]

/-- The `_extract` helper inside `_visibility_from_filter` (lines 114-121). -/
def extractVis : PyVal → Option (List PyVal)
  | .dict vd =>
    match pgetD vd "$in" with
    | .vList vs => some vs
    | _ => none
  | .vList vs => some vs
  | _ => none

/-- The `$and`-clause scan of `_visibility_from_filter` (lines 124-132):
first dict clause with a `visibility` key whose extraction succeeds. -/
def visFromClauses : List PyVal → Option (List PyVal)
  | [] => none
  | c :: rest =>
    match c with
    | .dict cd =>
      if hasKey cd "visibility" then
        match extractVis (pgetD cd "visibility") with
        | some vs => some vs
        | none => visFromClauses rest
      else visFromClauses rest
    | _ => visFromClauses rest

/-- `_visibility_from_filter` (lines 109-137). -/
def _visibility_from_filter (filter_kwargs : Option PyDict) : Option (List PyVal) :=
  match filter_kwargs with
  | none => none
  | some d =>
    if d.isEmpty then none
    else if hasKey d "$and" then visFromClauses (asClauseList (pgetD d "$and"))
    else if hasKey d "visibility" then extractVis (pgetD d "visibility")
    else none

/-- The `$and`-clause scan of `_tenant_from_filter` (lines 145-155): the
first dict clause with a `tenant_id` key returns immediately (a dict value
yields its `$eq` entry, anything else is returned as is). -/
def tenantFromClauses : List PyVal → PyVal
  | [] => .pnone
  | c :: rest =>
    match c with
    | .dict cd =>
      if hasKey cd "tenant_id" then
        match pgetD cd "tenant_id" with
        | .dict td => pgetD td "$eq"
        | v => v
      else tenantFromClauses rest
    | _ => tenantFromClauses rest

/-- `_tenant_from_filter` (lines 140-160).  Python `None` results are
modelled as `PyVal.pnone`. -/
def _tenant_from_filter (filter_kwargs : Option PyDict) : PyVal :=
  match filter_kwargs with
  | none => .pnone
  | some d =>
    if d.isEmpty then .pnone
    else if hasKey d "$and" then tenantFromClauses (asClauseList (pgetD d "$and"))
    else
      match pgetD d "tenant_id" with
      | .dict td => pgetD td "$eq"
      | v => v

/-- `_make_where_filter` (lines 163-171): the `$and`-wrapped Chroma filter,
with `None` entries dropped from the visibility list. -/
def _make_where_filter (tenant_id : PyVal) (visibility_in : List PyVal) : PyVal :=
  .dict [("$and", .vList
    [ .dict [("tenant_id", .dict [("$eq", tenant_id)])],
      .dict [("visibility", .dict [("$in",
        .vList (visibility_in.filter (fun v => !(v == PyVal.pnone))))])] ])]

/-- Python `x or y` on modelled values. -/
def pyOr (v dflt : PyVal) : PyVal :=
  if pyTruthy v then v else dflt

/-- A constructed retriever: `_build_retriever` returns either a
`HybridRetriever` or, when no BM25 snapshot exists, the bare vector
retriever (lines 271-280). -/
inductive Retriever where
  | hybrid : HybridRetriever → Retriever
  | plain : (String → Except RagError (List Doc)) → Retriever

/-- The `retrieve(query)` contract of a constructed retriever. -/
def Retriever.retrieve : Retriever → String → Except RagError (List Doc)
  | .hybrid h, q => _get_relevant_documents h q
  | .plain f, q => f q

/-- Bound post-hoc visibility set of a constructed retriever (the
`visibility_allowed` attribute; the bare vector retriever has none). -/
def Retriever.visibilityAllowedOf : Retriever → Option (List PyVal)
  | .hybrid h => some h.visibility_allowed
  | .plain _ => none

/-- Bound tenant of a constructed retriever. -/
def Retriever.tenantOf : Retriever → Option PyVal
  | .hybrid h => some h.tenant_id
  | .plain _ => none

/-- The vector-search function of a constructed retriever. -/
def Retriever.vectorOf : Retriever → (String → Except RagError (List Doc))
  | .hybrid h => h.vector_retriever
  | .plain f => f

/-- `build_vector_retriever_for_role` (lines 215-230): a Chroma retriever
with the role-derived `$and` where-filter, over the ambient vector search
function `vs`. -/
def build_vector_retriever_for_role
    (vs : PyVal → String → Except RagError (List Doc)) (role : String) :
    String → Except RagError (List Doc) :=
  fun q =>
    vs (_make_where_filter (.str DEFAULT_TENANT_ID)
      ((_visibility_allowed_for_role role).map PyVal.str)) q

/-- `_build_retriever` (lines 247-280).  The vector store, the optional
BM25 retriever and the tokenizer are ambient collaborators, passed as
parameters; `vs` receives the where-filter the source would place in
`search_kwargs`. -/
def _build_retriever (vs : PyVal → String → Except RagError (List Doc))
    (bm25 : Option (String → Except RagError (List Doc)))
    (tok : String → Except RagError (List String))
    (role : String) (filter_kwargs : Option PyDict) : Retriever :=
  let fkTruthy := match filter_kwargs with
    | some d => !d.isEmpty
    | none => false
  if fkTruthy then
    let d := filter_kwargs.getD []
    let tenant_id := pyOr (_tenant_from_filter filter_kwargs) (.str DEFAULT_TENANT_ID)
    let vis_from_filter := (_visibility_from_filter filter_kwargs).getD []
    let where_filter :=
      if hasKey d "$and" then PyVal.dict d
      else if hasKey d "tenant_id" || hasKey d "visibility" then
        _make_where_filter tenant_id
          (if vis_from_filter.isEmpty then
            (_visibility_allowed_for_role role).map PyVal.str
           else vis_from_filter)
      else PyVal.dict d
    let vector_retriever := fun q => vs where_filter q
    match bm25 with
    | some b =>
      .hybrid ⟨vector_retriever, b, vis_from_filter, tenant_id, tok⟩
    | none => .plain vector_retriever
  else
    let vector_retriever := build_vector_retriever_for_role vs role
    match bm25 with
    | some b =>
      .hybrid ⟨vector_retriever, b,
        (_visibility_allowed_for_role role).map PyVal.str,
        .str DEFAULT_TENANT_ID, tok⟩
    | none => .plain vector_retriever



/-- Decidable equality for `Except` results, so concrete retrieval runs can
be checked by evaluation. -/
instance {ε α : Type} [DecidableEq ε] [DecidableEq α] : DecidableEq (Except ε α) :=
  fun a b =>
    match a, b with
    | .ok x, .ok y =>
      match decEq x y with
      | isTrue h => isTrue (by rw [h])
      | isFalse h => isFalse (fun heq => h (Except.ok.inj heq))
    | .ok _, .error _ => isFalse (fun h => Except.noConfusion h)
    | .error _, .ok _ => isFalse (fun h => Except.noConfusion h)
    | .error x, .error y =>
      match decEq x y with
      | isTrue h => isTrue (by rw [h])
      | isFalse h => isFalse (fun heq => h (Except.error.inj heq))

/-- Sample public document of the default tenant. -/
def docPub : Doc :=
  ⟨"refund policy text",
    [("source", .str "faq.md"), ("visibility", .str "public"),
     ("tenant_id", .str "default")]⟩

/-- Sample admin-only document of the default tenant. -/
def docAdmin : Doc :=
  ⟨"internal notes", [("visibility", .str "admin_only"), ("tenant_id", .str "default")]⟩

/-- Sample legacy document with no `tenant_id` metadata. -/
def docNoTenant : Doc := ⟨"legacy chunk", [("visibility", .str "public")]⟩

/-- Sample document scoped to tenant `t1`, with no visibility tag. -/
def docT1 : Doc := ⟨"tenant doc", [("tenant_id", .str "t1")]⟩

/-- Vector-sourced and lexical-sourced documents sharing one content
string, plus a lexical-only document. -/
def dV : Doc := ⟨"same", [("src", .str "vec")]⟩

/-- Lexical twin of `dV` (same content, different metadata). -/
def dB : Doc := ⟨"same", [("src", .str "bm")]⟩

/-- Lexical-only document with distinct content. -/
def dB2 : Doc := ⟨"other", []⟩

/-- Tokenizer that returns the query as one token. -/
def tokId : String → Except RagError (List String) := fun s => .ok [s]

/-- Tokenizer that always fails. -/
def tokFail : String → Except RagError (List String) :=
  fun _ => .error .tokenizationError

/-- Vector search that returns no documents for any filter and query. -/
def vs0 : PyVal → String → Except RagError (List Doc) := fun _ _ => .ok []

/-- BM25 search that returns no documents. -/
def bm0 : String → Except RagError (List Doc) := fun _ => .ok []

/-- BM25 search returning the sample public document. -/
def bmPub : String → Except RagError (List Doc) := fun _ => .ok [docPub]

/-- Retriever whose tokenizer always fails. -/
def rTok : HybridRetriever :=
  ⟨fun _ => .ok [docPub], fun _ => .ok [], [.str "public"], .str "default", tokFail⟩

/-- Retriever whose BM25 index always fails. -/
def rLex : HybridRetriever :=
  ⟨fun _ => .ok [docPub], fun _ => .error .lexicalIndexError,
    [.str "public"], .str "default", tokId⟩

/-- Retriever bound to tenant `t1` with an empty visibility set. -/
def rIso : HybridRetriever :=
  ⟨fun _ => .ok [docT1], fun _ => .ok [docNoTenant], [], .str "t1", tokId⟩

/-- Every document kept by the merge loop comes from its input list. -/
theorem mem_of_mem_mergeAux (d : Doc) (l : List Doc) : ∀ seen : List String,
    d ∈ mergeAux seen l → d ∈ l := by
  induction l with
  | nil => intro seen h; simp [mergeAux] at h
  | cons e rest ih =>
    intro seen h
    simp only [mergeAux] at h
    split at h
    · exact List.mem_cons_of_mem _ (ih _ h)
    · rcases List.mem_cons.mp h with h | h
      · exact h ▸ List.mem_cons_self _ _
      · exact List.mem_cons_of_mem _ (ih _ h)

/-- The merge loop emits pairwise-distinct content keys, none of which was
already in `seen`. -/
theorem mergeAux_nodup (l : List Doc) : ∀ seen : List String,
    ((mergeAux seen l).map Doc.page_content).Nodup ∧
    ∀ c ∈ (mergeAux seen l).map Doc.page_content, c ∉ seen := by
  induction l with
  | nil => intro seen; simp [mergeAux]
  | cons e rest ih =>
    intro seen
    simp only [mergeAux]
    split
    · exact ih seen
    · rename_i hmem
      refine ⟨?_, ?_⟩
      · simp only [List.map_cons, List.nodup_cons]
        refine ⟨fun hin => ?_, (ih (e.page_content :: seen)).1⟩
        exact (ih (e.page_content :: seen)).2 _ hin (List.mem_cons_self _ _)
      · intro c hcm
        simp only [List.map_cons, List.mem_cons] at hcm
        rcases hcm with rfl | hcm
        · exact hmem
        · intro hcs
          exact (ih (e.page_content :: seen)).2 _ hcm (List.mem_cons_of_mem _ hcs)

/-- The first document with a given content key survives the merge loop
unchanged, provided the key was not already seen. -/
theorem find?_mergeAux (c : String) (l : List Doc) : ∀ seen : List String, c ∉ seen →
    (mergeAux seen l).find? (fun d => d.page_content == c) =
      l.find? (fun d => d.page_content == c) := by
  induction l with
  | nil => intro seen _; rfl
  | cons e rest ih =>
    intro seen hc
    simp only [mergeAux]
    split
    · rename_i hmem
      have hne : ¬(e.page_content == c) = true := by
        simp only [beq_iff_eq]
        intro h; exact hc (h ▸ hmem)
      rw [@List.find?_cons_of_neg _ (fun d => d.page_content == c) e rest hne]
      exact ih seen hc
    · rename_i hmem
      by_cases heq : e.page_content = c
      · rw [@List.find?_cons_of_pos _ (fun d => d.page_content == c) e
            (mergeAux (e.page_content :: seen) rest) (by simp [heq]),
          @List.find?_cons_of_pos _ (fun d => d.page_content == c) e rest
            (by simp [heq])]
      · have hne : ¬(e.page_content == c) = true := by simp [heq]
        rw [@List.find?_cons_of_neg _ (fun d => d.page_content == c) e
            (mergeAux (e.page_content :: seen) rest) hne,
          @List.find?_cons_of_neg _ (fun d => d.page_content == c) e rest hne]
        refine ih (e.page_content :: seen) ?_
        intro h
        rcases List.mem_cons.mp h with h2 | h2
        · exact heq h2.symm
        · exact hc h2

/-- Splitting the merge loop over an appended input: the first block is
merged first, then the second against the accumulated key set. -/
theorem mergeAux_append (l1 l2 : List Doc) : ∀ seen : List String,
    mergeAux seen (l1 ++ l2) = mergeAux seen l1 ++ mergeAux (seenAcc seen l1) l2 := by
  induction l1 with
  | nil => intro seen; simp [mergeAux, seenAcc]
  | cons e rest ih =>
    intro seen
    by_cases hm : e.page_content ∈ seen
    · simp only [List.cons_append, mergeAux, seenAcc, if_pos hm]
      exact ih seen
    · simp only [List.cons_append, mergeAux, seenAcc, if_neg hm, List.append_eq]
      rw [ih (e.page_content :: seen)]

/-- Any document in a successful `_get_relevant_documents` result passed
the post-hoc access filter of the retriever. -/
theorem keep_of_retrieve_ok (r : HybridRetriever) (q : String)
    (docs : List Doc) (d : Doc)
    (h : _get_relevant_documents r q = .ok docs) (hd : d ∈ docs) :
    keepDoc r.visibility_allowed r.tenant_id d = true := by
  simp only [_get_relevant_documents] at h
  split at h
  · exact Except.noConfusion h
  · split at h
    · exact Except.noConfusion h
    · split at h
      · exact Except.noConfusion h
      · injection h with h
        subst h
        have hmem := mem_of_mem_mergeAux d _ [] hd
        rcases List.mem_append.mp hmem with hm | hm
        · exact (List.mem_filter.mp hm).2
        · exact (List.mem_filter.mp hm).2


/-- Claim C1: for every role r in {admin, user}, every Document returned by
a retrieve call through the retriever built for r has visibility metadata
inside `_visibility_allowed_for_role r` (admin maps to {public, admin_only},
user maps to {public}); the vector index is trusted to honour the
where-filter it is handed, which is the stated hypothesis `hvs`. -/
theorem returned_visibility_in_role_policy
    (vs : PyVal → String → Except RagError (List Doc))
    (bm25 : Option (String → Except RagError (List Doc)))
    (tok : String → Except RagError (List String))
    (role q : String) (docs : List Doc) (d : Doc)
    (_hrole : role = "admin" ∨ role = "user")
    (hvs : ∀ (q2 : String) (ds : List Doc),
        vs (_make_where_filter (.str DEFAULT_TENANT_ID)
          ((_visibility_allowed_for_role role).map PyVal.str)) q2 = .ok ds →
        ∀ e ∈ ds, metaGet e "visibility" ∈ (_visibility_allowed_for_role role).map PyVal.str)
    (hret : (_build_retriever vs bm25 tok role none).retrieve q = .ok docs)
    (hd : d ∈ docs) :
    metaGet d "visibility" ∈ (_visibility_allowed_for_role role).map PyVal.str ∧
    _visibility_allowed_for_role "admin" = ["public", "admin_only"] ∧
    _visibility_allowed_for_role "user" = ["public"] := by
  refine ⟨?_, rfl, rfl⟩
  cases bm25 with
  | none =>
    exact hvs q docs hret d hd
  | some b =>
    have hret2 : _get_relevant_documents
        ⟨build_vector_retriever_for_role vs role, b,
          (_visibility_allowed_for_role role).map PyVal.str,
          .str DEFAULT_TENANT_ID, tok⟩ q = .ok docs := hret
    have hk : keepDoc ((_visibility_allowed_for_role role).map PyVal.str)
        (.str DEFAULT_TENANT_ID) d = true :=
      keep_of_retrieve_ok _ q docs d hret2 hd
    simp only [keepDoc, Bool.and_eq_true] at hk
    have hvk := hk.1
    simp only [visKeep] at hvk
    have hise : ((_visibility_allowed_for_role role).map PyVal.str).isEmpty = false := by
      cases hb : role == "admin" <;> simp [_visibility_allowed_for_role, hb]
    rw [hise] at hvk
    simp only [Bool.false_or] at hvk
    simpa using hvk

/-- Witness for C1 at role `user`, with an empty vector result and a BM25
result containing one public document. -/
theorem returned_visibility_in_role_policy_witness :
    metaGet docPub "visibility" ∈ (_visibility_allowed_for_role "user").map PyVal.str ∧
    _visibility_allowed_for_role "admin" = ["public", "admin_only"] ∧
    _visibility_allowed_for_role "user" = ["public"] :=
  returned_visibility_in_role_policy vs0 (some bmPub) tokId "user" "q" [docPub] docPub
    (Or.inr rfl)
    (fun q2 ds h e he => by
      have h2 : Except.ok ([] : List Doc) = Except.ok ds := h
      cases Except.ok.inj h2
      cases he)
    (by decide) (by simp)

/-- Claim C2: a retrieve call on a HybridRetriever bound to tenant t1 never
returns a Document whose `tenant_id` metadata is a different tenant t2, and
a Document with no `tenant_id` metadata passes the tenant part of the
post-hoc filter by design. -/
theorem tenant_isolation
    (r : HybridRetriever) (q t1 t2 : String) (docs : List Doc) (d : Doc)
    (hne : t1 ≠ t2)
    (ht : r.tenant_id = .str t1)
    (hret : _get_relevant_documents r q = .ok docs)
    (hd : d ∈ docs) :
    metaGet d "tenant_id" ≠ PyVal.str t2 ∧
    ∀ (t : PyVal) (e : Doc), metaGet e "tenant_id" = PyVal.pnone →
      tenantKeep t e = true := by
  refine ⟨?_, fun t e he => by simp [tenantKeep, he]⟩
  have hk := keep_of_retrieve_ok r q docs d hret hd
  simp only [keepDoc, Bool.and_eq_true] at hk
  have htk := hk.2
  rw [ht] at htk
  simp only [tenantKeep, Bool.or_eq_true, beq_iff_eq] at htk
  intro hcontra
  rcases htk with h | h
  · rw [hcontra] at h; exact PyVal.noConfusion h
  · rw [hcontra] at h
    exact hne (PyVal.str.inj h).symm

/-- Witness for C2: the retriever bound to tenant `t1` returns `docT1`,
whose tenant is not `t2`. -/
theorem tenant_isolation_witness :
    metaGet docT1 "tenant_id" ≠ PyVal.str "t2" ∧
    ∀ (t : PyVal) (e : Doc), metaGet e "tenant_id" = PyVal.pnone →
      tenantKeep t e = true :=
  tenant_isolation rIso "q" "t1" "t2" [docT1, docNoTenant] docT1
    (by decide) rfl (by decide) (by simp)

/-- Claim C3: the merged result deduplicates by exact content string — its
content keys are pairwise distinct, a content string produced by the vector
sub-search appears exactly once and is served by the first vector-sourced
entry (with its metadata), and the merge lays out the deduplicated vector
results first, then the new lexical results. -/
theorem merge_dedup_vector_priority (v b : List Doc) (c : String)
    (hc : c ∈ v.map Doc.page_content) :
    ((mergeDocs (v ++ b)).map Doc.page_content).Nodup ∧
    ((mergeDocs (v ++ b)).map Doc.page_content).count c = 1 ∧
    (mergeDocs (v ++ b)).find? (fun d => d.page_content == c) =
      v.find? (fun d => d.page_content == c) ∧
    mergeDocs (v ++ b) = mergeDocs v ++ mergeAux (seenAcc [] v) b := by
  have hnodup := (mergeAux_nodup (v ++ b) []).1
  have hsome : (v.find? (fun d => d.page_content == c)).isSome := by
    rw [List.find?_isSome]
    rcases List.mem_map.mp hc with ⟨x, hx, rfl⟩
    exact ⟨x, hx, by simp⟩
  rcases Option.isSome_iff_exists.mp hsome with ⟨a, ha⟩
  have hfind : (mergeDocs (v ++ b)).find? (fun d => d.page_content == c) =
      v.find? (fun d => d.page_content == c) := by
    rw [mergeDocs, find?_mergeAux c (v ++ b) [] (List.not_mem_nil c),
      List.find?_append, ha]
    rfl
  refine ⟨hnodup, ?_, hfind, mergeAux_append v b []⟩
  have hmem : a ∈ mergeDocs (v ++ b) :=
    List.mem_of_find?_eq_some (hfind.trans ha)
  have hac : a.page_content = c := by
    have := List.find?_some ha
    simpa using this
  exact List.count_eq_one_of_mem hnodup
    (List.mem_map.mpr ⟨a, hmem, hac⟩)

/-- Witness for C3 on the shared content string of `dV` and `dB`. -/
theorem merge_dedup_vector_priority_witness :
    ((mergeDocs ([dV] ++ [dB, dB2])).map Doc.page_content).Nodup ∧
    ((mergeDocs ([dV] ++ [dB, dB2])).map Doc.page_content).count "same" = 1 ∧
    (mergeDocs ([dV] ++ [dB, dB2])).find? (fun d => d.page_content == "same") =
      [dV].find? (fun d => d.page_content == "same") ∧
    mergeDocs ([dV] ++ [dB, dB2]) = mergeDocs [dV] ++ mergeAux (seenAcc [] [dV]) [dB, dB2] :=
  merge_dedup_vector_priority [dV] [dB, dB2] "same" (by decide)

/-- Claim C4 counterexample: for the unrecognized role "guest" (outside
{admin, user}), `_visibility_allowed_for_role` does not fail — it silently
returns the user default `["public"]`.  The source defines no `PolicyError`
and raises nothing for unknown roles. -/
theorem unknown_role_silently_defaults_cex :
    _visibility_allowed_for_role "guest" = ["public"] ∧
    _visibility_allowed_for_role "guest" = _visibility_allowed_for_role "user" ∧
    "guest" ≠ "admin" ∧ "guest" ≠ "user" := by
  refine ⟨rfl, rfl, by decide, by decide⟩

/-- Claim C4 amended: every role other than "admin" — including roles
outside the recognized set — resolves to the visibility set `["public"]`;
resolution never fails. -/
theorem unknown_role_silently_defaults (role : String) (h : role ≠ "admin") :
    _visibility_allowed_for_role role = ["public"] := by
  simp [_visibility_allowed_for_role, h]

/-- Witness for the amended C4 at role "guest". -/
theorem unknown_role_silently_defaults_witness :
    _visibility_allowed_for_role "guest" = ["public"] :=
  unknown_role_silently_defaults "guest" (by decide)

/-- Claim C5 counterexample: `_tokenize_question` contains no error
handling, so with a failing tokenizer it returns the error instead of the
original query, and the surrounding retrieve call aborts with that error. -/
theorem tokenizer_failure_aborts_cex :
    _tokenize_question tokFail "hello" = .error .tokenizationError ∧
    _tokenize_question tokFail "hello" ≠ .ok "hello" ∧
    _get_relevant_documents rTok "hello" = .error .tokenizationError := by
  refine ⟨rfl, by decide, rfl⟩

/-- Claim C5 amended: a tokenizer failure propagates out of
`_tokenize_question` unchanged and aborts the retrieve call with the same
error (no fallback to the untokenized query). -/
theorem tokenizer_error_propagates
    (r : HybridRetriever) (q : String) (vdocs : List Doc) (e : RagError)
    (hv : r.vector_retriever q = .ok vdocs)
    (ht : r.tokenizer q = .error e) :
    _tokenize_question r.tokenizer q = .error e ∧
    _get_relevant_documents r q = .error e := by
  have h1 : _tokenize_question r.tokenizer q = .error e := by
    simp [_tokenize_question, ht]
  exact ⟨h1, by simp [_get_relevant_documents, hv, h1]⟩

/-- Witness for the amended C5 on the always-failing tokenizer. -/
theorem tokenizer_error_propagates_witness :
    _tokenize_question rTok.tokenizer "hello" = .error .tokenizationError ∧
    _get_relevant_documents rTok "hello" = .error .tokenizationError :=
  tokenizer_error_propagates rTok "hello" [docPub] .tokenizationError rfl rfl

/-- Claim C6 counterexample: a lexical (BM25) index error inside a retrieve
call is not caught — the call returns the error rather than the vector-only
result list. -/
theorem lexical_failure_aborts_cex :
    _get_relevant_documents rLex "q" = .error .lexicalIndexError ∧
    _get_relevant_documents rLex "q" ≠
      .ok (_filter_docs rLex.visibility_allowed rLex.tenant_id [docPub]) := by
  refine ⟨rfl, by decide⟩

/-- Claim C6 amended: when the vector search and tokenization succeed and
the BM25 search fails, `_get_relevant_documents` propagates the lexical
error and the call fails instead of degrading to vector-only results. -/
theorem lexical_error_propagates
    (r : HybridRetriever) (q tq : String) (vdocs : List Doc) (e : RagError)
    (hv : r.vector_retriever q = .ok vdocs)
    (ht : _tokenize_question r.tokenizer q = .ok tq)
    (hb : r.bm25_retriever tq = .error e) :
    _get_relevant_documents r q = .error e := by
  simp [_get_relevant_documents, hv, ht, hb]

/-- Witness for the amended C6 on the always-failing BM25 retriever. -/
theorem lexical_error_propagates_witness :
    _get_relevant_documents rLex "q" = .error .lexicalIndexError :=
  lexical_error_propagates rLex "q" "q" [docPub] .lexicalIndexError rfl rfl rfl

/-- Claim C7: when no BM25 retriever is bound, `_build_retriever` returns
the bare vector retriever itself, so its retrieve output is identical to
the vector-only retriever with the same role-derived AccessFilter for every
query. -/
theorem degraded_mode_vector_only
    (vs : PyVal → String → Except RagError (List Doc))
    (tok : String → Except RagError (List String)) (role q : String) :
    _build_retriever vs none tok role none =
      Retriever.plain (build_vector_retriever_for_role vs role) ∧
    (_build_retriever vs none tok role none).retrieve q =
      build_vector_retriever_for_role vs role q :=
  ⟨rfl, rfl⟩

/-- Claim C8 counterexample: for the override filter {tenant_id: "t1"}
(no visibility clause), the constructed HybridRetriever's bound
`visibility_allowed` is the empty list, not
`_visibility_allowed_for_role "admin"` as the claim states. -/
theorem override_missing_visibility_cex :
    (_build_retriever vs0 (some bm0) tokId "admin"
      (some [("tenant_id", PyVal.str "t1")])).visibilityAllowedOf = some [] ∧
    some ([] : List PyVal) ≠
      some ((_visibility_allowed_for_role "admin").map PyVal.str) := by
  refine ⟨rfl, by decide⟩

/-- Claim C8 amended: for an override filter with no visibility clause the
HybridRetriever's bound `visibility_allowed` is the empty list (post-hoc
visibility filtering disabled); the role's allowed set is used only as the
visibility clause of the vector where-filter, and only for flat-form
filters with a `tenant_id` or `visibility` key (a `$and`-form filter is
passed to the vector index verbatim).  With no truthy tenant clause the
bound tenant is the default tenant, as the claim states. -/
theorem override_filter_binding
    (vs : PyVal → String → Except RagError (List Doc))
    (b : String → Except RagError (List Doc))
    (tok : String → Except RagError (List String))
    (role : String) (d : PyDict)
    (hne : d ≠ [])
    (hvis : _visibility_from_filter (some d) = none) :
    (_build_retriever vs (some b) tok role (some d)).visibilityAllowedOf = some [] ∧
    (_tenant_from_filter (some d) = .pnone →
      (_build_retriever vs (some b) tok role (some d)).tenantOf =
        some (.str DEFAULT_TENANT_ID)) ∧
    (hasKey d "$and" = false → (hasKey d "tenant_id" || hasKey d "visibility") = true →
      (_build_retriever vs (some b) tok role (some d)).vectorOf =
        fun q => vs (_make_where_filter
          (pyOr (_tenant_from_filter (some d)) (.str DEFAULT_TENANT_ID))
          ((_visibility_allowed_for_role role).map PyVal.str)) q) ∧
    (hasKey d "$and" = true →
      (_build_retriever vs (some b) tok role (some d)).vectorOf =
        fun q => vs (PyVal.dict d) q) := by
  have hde : d.isEmpty = false := List.isEmpty_eq_false.mpr hne
  refine ⟨?_, ?_, ?_, ?_⟩
  · simp [_build_retriever, hde, hvis, Retriever.visibilityAllowedOf]
  · intro hten
    simp [_build_retriever, hde, hvis, hten, Retriever.tenantOf, pyOr, pyTruthy]
  · intro h1 h2
    simp [_build_retriever, hde, hvis, h1, h2, Retriever.vectorOf]
  · intro h1
    simp [_build_retriever, hde, hvis, h1, Retriever.vectorOf]

/-- Witness for the amended C8 on the override filter {tenant_id: "t1"}. -/
theorem override_filter_binding_witness :
    (_build_retriever vs0 (some bm0) tokId "user"
      (some [("tenant_id", PyVal.str "t1")])).visibilityAllowedOf = some [] ∧
    (_tenant_from_filter (some [("tenant_id", PyVal.str "t1")]) = .pnone →
      (_build_retriever vs0 (some bm0) tokId "user"
        (some [("tenant_id", PyVal.str "t1")])).tenantOf =
          some (.str DEFAULT_TENANT_ID)) ∧
    (hasKey [("tenant_id", PyVal.str "t1")] "$and" = false →
      (hasKey [("tenant_id", PyVal.str "t1")] "tenant_id" ||
        hasKey [("tenant_id", PyVal.str "t1")] "visibility") = true →
      (_build_retriever vs0 (some bm0) tokId "user"
        (some [("tenant_id", PyVal.str "t1")])).vectorOf =
        fun q => vs0 (_make_where_filter
          (pyOr (_tenant_from_filter (some [("tenant_id", PyVal.str "t1")]))
            (.str DEFAULT_TENANT_ID))
          ((_visibility_allowed_for_role "user").map PyVal.str)) q) ∧
    (hasKey [("tenant_id", PyVal.str "t1")] "$and" = true →
      (_build_retriever vs0 (some bm0) tokId "user"
        (some [("tenant_id", PyVal.str "t1")])).vectorOf =
        fun q => vs0 (PyVal.dict [("tenant_id", PyVal.str "t1")]) q) :=
  override_filter_binding vs0 bm0 tokId "user" [("tenant_id", PyVal.str "t1")]
    (by decide) rfl

/-- Claim C10: with an empty bound `visibility_allowed` list the post-hoc
filter applies no visibility check at all — `_filter_docs` reduces to the
tenant check alone, and every Document (admin_only or missing visibility
included) passes the visibility part. -/
theorem empty_visibility_allows_all (t : PyVal) (docs : List Doc) :
    _filter_docs [] t docs = docs.filter (fun d => tenantKeep t d) ∧
    (∀ d : Doc, visKeep [] d = true) ∧
    visKeep [] docAdmin = true := by
  refine ⟨?_, fun d => by simp [visKeep], by simp [visKeep]⟩
  have hfun : keepDoc [] t = fun d => tenantKeep t d := by
    funext d
    simp [keepDoc, visKeep]
  rw [_filter_docs, hfun]


end RagChain
